import Mathlib

/-!
# Verification of `export.py` (leetcode-problems-export)

A shallow embedding of the single source file `src/export.py` and proofs of
the specification's claims about it.

Modelling conventions:
* Python exceptions are modelled by the inductive `PyError`; fallible code
  returns `Except PyError α`.
* A side-effecting wrapped function handed to the retry decorator is modelled
  as `f : Nat → Except E α`, giving the outcome of its `n`-th invocation
  (0-indexed); the wrapper's observable behaviour is a `RetryTrace`: the
  returned/raised outcome, the number of calls made, and the ordered list of
  sleep durations performed between attempts.
* Network effects are counted explicitly where a claim is about their number.
* Scalar item fields written verbatim to the CSV (id, title, slug, category,
  frequency) are modelled as the strings the CSV writer emits for them.
-/

namespace Export

/-- Python exception values relevant to `export.py`.
`protocolError` is `urllib3.exceptions.ProtocolError`, the transient class the
two fetchers retry on; `keyError`, `typeError`, `attributeError` arise from
dict/env lookups and `json.loads`; `other` covers any further class. -/
inductive PyError where
  | protocolError
  | keyError (key : String)
  | typeError (msg : String)
  | attributeError (msg : String)
  | other (name : String)
deriving DecidableEq, Repr

/-- The transient-exception set used at both `@retry(...)` sites in
`export.py`: `exceptions=(urllib3.exceptions.ProtocolError,)`. -/
def fetchTransient : PyError → Bool
  | .protocolError => true
  | _ => false

/-- The attempt ceiling used at both `@retry(...)` sites: `times=3`. -/
def fetchTimes : Nat := 3

/-- The retry delay used at both `@retry(...)` sites: `delay=5` seconds. -/
def fetchDelay : ℚ := 5

/-- Observable trace of one run of the retry wrapper around a wrapped
function: the final outcome (returned value or propagated error), the total
number of calls made to the wrapped function, and the ordered list of
`time.sleep` durations performed by the wrapper. -/
structure RetryTrace (E α : Type) where
  result : Except E α
  calls : Nat
  sleeps : List ℚ
deriving Repr

/-- The loop body of `retry`'s `wrapper` in `export.py` lines 59-74.
`remaining` is how many iterations of `for attempt in range(times - 1)` are
left; `c` is the index of the next call to the wrapped function `f`.
When the loop is exhausted (`remaining = 0`) the wrapper performs the final
`return func(*args, **kwargs)` outside any `try`, so whatever that call
produces is returned / propagated unchanged.  Inside the loop, a result or a
non-transient error returns immediately; a transient error is logged,
`time.sleep(delay)` runs, and the loop continues. -/
def retryGo (transient : E → Bool) (delay : ℚ) (f : Nat → Except E α) :
    Nat → Nat → RetryTrace E α
  | 0, c => ⟨f c, 1, []⟩
  | remaining + 1, c =>
    match f c with
    | .ok v => ⟨.ok v, 1, []⟩
    | .error e =>
      if transient e then
        let r := retryGo transient delay f remaining (c + 1)
        ⟨r.result, r.calls + 1, delay :: r.sleeps⟩
      else
        ⟨.error e, 1, []⟩

/-- `retry(times, exceptions, delay)` from `export.py` lines 52-76, applied to
a wrapped function `f` and run once: the loop runs `times - 1` catching
iterations, then one final uncaught call. -/
def retry (times : Nat) (transient : E → Bool) (delay : ℚ)
    (f : Nat → Except E α) : RetryTrace E α :=
  retryGo transient delay f (times - 1) 0

/-- The environment-variable name read by `_get_leetcode_api_client`. -/
def LEETCODE_SESSION_ID : String := "LEETCODE_SESSION_ID"

/-- The client handle built by `_get_leetcode_api_client`: the session
credential and the anti-forgery token derived from it. -/
structure ApiClient where
  session_id : String
  csrf_token : String
deriving DecidableEq, Repr

/-- `_get_leetcode_api_client` from `export.py` lines 27-49.
`env` is the process environment (`os.environ`), `get_csrf_cookie` the
network round-trip `leetcode.auth.get_csrf_cookie`.  Returns the constructed
client (or the `KeyError` that `os.environ["LEETCODE_SESSION_ID"]` raises
when the variable is absent) paired with the number of network calls made:
the `os.environ` lookup on line 37 happens before the `get_csrf_cookie`
network call on line 38, so a missing variable means zero network calls. -/
def getLeetcodeApiClient (env : String → Option String)
    (get_csrf_cookie : String → String) : Except PyError ApiClient × Nat :=
  match env LEETCODE_SESSION_ID with
  | none => (.error (.keyError LEETCODE_SESSION_ID), 0)
  | some session_id =>
    let csrf_token := get_csrf_cookie session_id
    (.ok { session_id := session_id, csrf_token := csrf_token }, 1)

/-- `_get_problems_count` from `export.py` lines 80-114, given the
`totalNum` field of the count response: `data.problemset_question_list.total_num or 0`
returns 0 when the field is `None` (and also when it is 0, which `or`
treats the same way). -/
def getProblemsCount (total_num : Option Nat) : Nat :=
  match total_num with
  | none => 0
  | some n => n

/-- The GraphQL variables built by `_get_problems_data_page`
(`export.py` lines 148-153): `category_slug=""`, `limit=page_size`,
`skip=offset + page * page_size`, empty filters. -/
structure QuestionListVariables where
  category_slug : String
  limit : Nat
  skip : Nat
deriving DecidableEq, Repr

/-- The request window computed by `_get_problems_data_page` for base
`offset`, batch `page_size` and zero-based `page` index. -/
def pageRequestVariables (offset page_size page : Nat) : QuestionListVariables :=
  { category_slug := ""
    limit := page_size
    skip := offset + page * page_size }

/-- Ceiling division as `math.ceil((stop - start + 1) / page_size)` computes
it (exact for the integer arguments the driver passes). -/
def ceilDivNat (a b : Nat) : Nat := (a + b - 1) / b

/-- `_get_problems_data` from `export.py` lines 190-210, with the count
response and the page fetcher as explicit collaborators.
`fetchPage offset page_size page` stands for `_get_problems_data_page`'s
return value.  The driver computes `start = 0`, `stop = problem_count`,
iterates `page` over `range(math.ceil((stop - start + 1) / page_size))` in
increasing order, extending the accumulated `problems` list with each page's
data.  Returns the accumulated list paired with the number of page-fetcher
invocations. -/
def getProblemsData (page_size : Nat) (countResp : Option Nat)
    (fetchPage : Nat → Nat → Nat → List α) : List α × Nat :=
  let problem_count := getProblemsCount countResp
  let start := 0
  let stop := problem_count
  (List.range (ceilDivNat (stop - start + 1) page_size)).foldl
    (fun acc page => (acc.1 ++ fetchPage start page_size page, acc.2 + 1))
    ([], 0)

/-- A topic tag as returned in an item's `topicTags` field: a name/slug
pair (`export.py` query lines 139-142). -/
structure TopicTag where
  name : String
  slug : String
deriving DecidableEq, Repr

/-- One element of a company's tag list inside the decoded
`companyTagStats` JSON: a JSON object, modelled as its ordered field list.
`main` reads its `"slug"` key. -/
def TagObj : Type := List (String × String)

instance : DecidableEq TagObj := inferInstanceAs (DecidableEq (List (String × String)))

/-- Python `d["slug"]`-style lookup on a decoded JSON object: the value of
the first field named `key`, if any. -/
def lookupField (key : String) (obj : TagObj) : Option String :=
  match obj with
  | [] => none
  | (k, v) :: rest => if k = key then some v else lookupField key rest

/-- The `companyTagStats` field of an item as `main` sees it after
`json.loads`.  `malformed` covers inputs on which `json.loads` raises
(invalid JSON text, or a `None` field raising `TypeError`); `notAnObject`
covers texts that decode to something without `.values()` (e.g. JSON
`null`); `parsed entries` is a decoded object mapping each company name to
its list of tag objects, in insertion order. -/
inductive CompanyTagStats where
  | malformed (msg : String)
  | notAnObject (msg : String)
  | parsed (entries : List (String × List TagObj))
deriving DecidableEq

/-- All tag objects of a decoded company-stats object, in the order Python's
`itertools.chain(*stats.values())` yields them: companies in insertion
order, each company's list in order. -/
def allTagObjs (entries : List (String × List TagObj)) : List TagObj :=
  (entries.map Prod.snd).flatten

/-- The evaluation of Python's `{d["slug"] for d in chain(*values)}` element
expressions, in iteration order: succeeds with the list of slug values, or
raises `KeyError` at the first tag object lacking a `"slug"` field. -/
def collectSlugs : List TagObj → Except PyError (List String)
  | [] => .ok []
  | obj :: rest =>
    match lookupField "slug" obj with
    | none => .error (.keyError "slug")
    | some s =>
      match collectSlugs rest with
      | .error e => .error e
      | .ok ss => .ok (s :: ss)

/-- The whole `companies`-field computation of `main` (`export.py` lines
241-248): decode `companyTagStats`, chain all companies' tag lists, take
each object's `"slug"`, deduplicate, and the caller comma-joins the result.
Python builds a `set`, whose iteration order is unspecified; we model the
deduplication with `List.dedup`, which has the same element set and the same
uniqueness guarantee. -/
def companySlugSet (stats : CompanyTagStats) : Except PyError (List String) :=
  match stats with
  | .malformed msg => .error (.typeError msg)
  | .notAnObject msg => .error (.attributeError msg)
  | .parsed entries =>
    match collectSlugs (allTagObjs entries) with
    | .error e => .error e
    | .ok slugs => .ok slugs.dedup

/-- An item record (`GraphqlQuestionDetail`) as consumed by `main`.
Scalar fields are modelled as the strings the CSV writer emits for them;
`is_paid_only` is the boolean flag; `company_tag_stats` is the decoded form
of the JSON-encoded string field. -/
structure GraphqlQuestionDetail where
  question_frontend_id : String
  title : String
  title_slug : String
  category_title : String
  frequency : String
  is_paid_only : Bool
  topic_tags : List TopicTag
  company_tag_stats : CompanyTagStats

/-- The string Python's CSV writer emits for a `bool` field. -/
def pyBoolStr (b : Bool) : String :=
  if b then "True" else "False"

/-- The header row written first by `main` (`export.py` lines 217-229). -/
def csv_header : List String :=
  ["Question id", "title", "slug", "category", "frequency", "is_paid",
   "topics", "companies"]

/-- The row of fields `main` writes for one item (`export.py` lines 231-250),
or the error raised while computing the `companies` field. -/
def problemRow (p : GraphqlQuestionDetail) : Except PyError (List String) :=
  match companySlugSet p.company_tag_stats with
  | .error e => .error e
  | .ok companies =>
    .ok [p.question_frontend_id,
         p.title,
         p.title_slug,
         p.category_title,
         p.frequency,
         pyBoolStr p.is_paid_only,
         String.intercalate "," (p.topic_tags.map TopicTag.slug),
         String.intercalate "," companies]

/-- The row `problemRow` yields for an item on which it succeeds (and `[]`
on one where it raises); a convenience projection for stating theorems. -/
def okRow (p : GraphqlQuestionDetail) : List String :=
  match problemRow p with
  | .ok row => row
  | .error _ => []

/-- The row-writing loop of `main`: rows are written one at a time in item
order; an uncaught error while building a row stops the loop with the rows
written so far on disk.  Returns the rows actually written and the error
that stopped the loop, if any. -/
def writeRows : List GraphqlQuestionDetail → List (List String) × Option PyError
  | [] => ([], none)
  | p :: ps =>
    match problemRow p with
    | .error e => ([], some e)
    | .ok row =>
      let rest := writeRows ps
      (row :: rest.1, rest.2)

/-- The output file produced by `main`'s export step, as the list of rows
present in it when the program ends: the header row is written first, then
the item rows until completion or the first row-building error. -/
def exportFile (problems_data : List GraphqlQuestionDetail) :
    List (List String) × Option PyError :=
  let rows := writeRows problems_data
  (csv_header :: rows.1, rows.2)

/-- The spec's company-stats example, decoded:
`{"CompanyA": [{"slug":"x"},{"slug":"y"}], "CompanyB": [{"slug":"x"}]}`. -/
def sampleStats : CompanyTagStats :=
  .parsed [("CompanyA", [[("slug", "x")], [("slug", "y")]]),
           ("CompanyB", [[("slug", "x")]])]

/-- A concrete well-formed item record, used to instantiate theorems. -/
def sampleProblem : GraphqlQuestionDetail :=
  { question_frontend_id := "1"
    title := "Two Sum"
    title_slug := "two-sum"
    category_title := "Algorithms"
    frequency := "0.0"
    is_paid_only := false
    topic_tags := [{ name := "Array", slug := "array" }]
    company_tag_stats := sampleStats }

/-- A concrete item whose company-stats field is not valid JSON (e.g. the
field was `null`, so `json.loads` raises). -/
def badProblem : GraphqlQuestionDetail :=
  { sampleProblem with company_tag_stats := .malformed "the JSON object must be str, not NoneType" }

/-! ## Theorems -/

theorem retryGo_ok_after_transient (transient : E → Bool) (delay : ℚ)
    (f : Nat → Except E α) (v : α) (k : Nat) :
    ∀ (n c : Nat), k ≤ n →
      (∀ i, i < k → ∃ e, f (c + i) = .error e ∧ transient e = true) →
      f (c + k) = .ok v →
      retryGo transient delay f n c = ⟨.ok v, k + 1, List.replicate k delay⟩ := by
  induction k with
  | zero =>
    intro n c _ _ hok
    rw [Nat.add_zero] at hok
    cases n with
    | zero => simp [retryGo, hok]
    | succ m => simp [retryGo, hok]
  | succ j ih =>
    intro n c hkn herr hok
    cases n with
    | zero => omega
    | succ m =>
      obtain ⟨e, he, ht⟩ := herr 0 (Nat.succ_pos j)
      rw [Nat.add_zero] at he
      simp only [retryGo, he, ht, if_true]
      rw [ih m (c + 1) (by omega)
        (fun i hi => by
          have h := herr (i + 1) (by omega)
          rwa [show c + (i + 1) = c + 1 + i by omega] at h)
        (by rwa [show c + 1 + j = c + (j + 1) by omega])]
      simp [List.replicate_succ]

theorem retryGo_all_transient (transient : E → Bool) (delay : ℚ)
    (f : Nat → Except E α)
    (herr : ∀ i, ∃ e, f i = .error e ∧ transient e = true) :
    ∀ (n c : Nat),
      retryGo transient delay f n c = ⟨f (c + n), n + 1, List.replicate n delay⟩ := by
  intro n
  induction n with
  | zero => intro c; simp [retryGo]
  | succ m ih =>
    intro c
    obtain ⟨e, he, ht⟩ := herr c
    simp only [retryGo, he, ht, if_true]
    rw [ih (c + 1), show c + 1 + m = c + (m + 1) by omega]
    simp [List.replicate_succ]

/-- C3: a wrapped function that raises a transient error on its first `k`
calls (`k < times`) and succeeds with `v` on call `k + 1` makes the retry
wrapper return `v`, after exactly `k + 1` calls to the wrapped function and
exactly `k` delay-sleeps of `delay` seconds each. -/
theorem claim_C3_retry_transient_then_success {E α : Type} (times k : Nat)
    (transient : E → Bool) (delay : ℚ) (f : Nat → Except E α) (v : α)
    (hk : k < times)
    (herr : ∀ i, i < k → ∃ e, f i = .error e ∧ transient e = true)
    (hok : f k = .ok v) :
    retry times transient delay f = ⟨.ok v, k + 1, List.replicate k delay⟩ := by
  rw [retry]
  exact retryGo_ok_after_transient transient delay f v k (times - 1) 0 (by omega)
    (fun i hi => by simpa using herr i hi) (by simpa using hok)

/-- Witness for C3 at the source's retry configuration (3 attempts, 5 s
delay, `ProtocolError` transient), with one transient failure then success. -/
theorem claim_C3_retry_transient_then_success_witness :
    retry fetchTimes fetchTransient fetchDelay
      (fun i => if i = 0 then .error .protocolError else (.ok 42 : Except PyError Nat)) =
      ⟨.ok 42, 2, List.replicate 1 fetchDelay⟩ :=
  claim_C3_retry_transient_then_success fetchTimes 1 fetchTransient fetchDelay
    (fun i => if i = 0 then .error .protocolError else (.ok 42 : Except PyError Nat)) 42
    (by decide)
    (fun i hi => by interval_cases i; exact ⟨.protocolError, rfl, rfl⟩)
    rfl

/-- C4: a wrapped function that raises a transient error on every call makes
the retry wrapper (ceiling `times ≥ 1`) call it exactly `times` times, and
the outcome of the `times`-th call — an error — propagates unmodified. -/
theorem claim_C4_retry_exhausts_and_propagates {E α : Type} (times : Nat)
    (htimes : 1 ≤ times) (transient : E → Bool) (delay : ℚ)
    (f : Nat → Except E α)
    (herr : ∀ i, ∃ e, f i = .error e ∧ transient e = true) :
    (retry times transient delay f).calls = times ∧
    (retry times transient delay f).result = f (times - 1) ∧
    ∃ e, (retry times transient delay f).result = .error e := by
  rw [retry, retryGo_all_transient transient delay f herr (times - 1) 0]
  refine ⟨by show times - 1 + 1 = times; omega, by simp, ?_⟩
  obtain ⟨e, he, _⟩ := herr (times - 1)
  exact ⟨e, by simpa using he⟩

/-- Witness for C4 at the source's retry configuration with an
always-failing wrapped function. -/
theorem claim_C4_retry_exhausts_and_propagates_witness :
    (retry fetchTimes fetchTransient fetchDelay
      (fun _ => (.error .protocolError : Except PyError Nat))).calls = fetchTimes ∧
    (retry fetchTimes fetchTransient fetchDelay
      (fun _ => (.error .protocolError : Except PyError Nat))).result =
      (fun _ => (.error .protocolError : Except PyError Nat)) (fetchTimes - 1) ∧
    ∃ e, (retry fetchTimes fetchTransient fetchDelay
      (fun _ => (.error .protocolError : Except PyError Nat))).result = .error e :=
  claim_C4_retry_exhausts_and_propagates fetchTimes (by decide) fetchTransient
    fetchDelay (fun _ => (.error .protocolError : Except PyError Nat))
    (fun _ => ⟨.protocolError, rfl, rfl⟩)

/-- C5: a wrapped function that raises a non-transient error on its first
call makes the retry wrapper call it exactly once, perform no delay-sleep,
and propagate that error immediately. -/
theorem claim_C5_nontransient_propagates_immediately {E α : Type} (times : Nat)
    (transient : E → Bool) (delay : ℚ) (f : Nat → Except E α) (e : E)
    (h0 : f 0 = .error e) (hnt : transient e = false) :
    retry times transient delay f = ⟨.error e, 1, []⟩ := by
  rw [retry]
  cases h : times - 1 with
  | zero => simp [retryGo, h0]
  | succ m => simp [retryGo, h0, hnt]

/-- Witness for C5 at the source's retry configuration with a wrapped
function raising `KeyError` (not in the transient set) at once. -/
theorem claim_C5_nontransient_propagates_immediately_witness :
    retry fetchTimes fetchTransient fetchDelay
      (fun _ => (.error (.keyError "slug") : Except PyError Nat)) =
      ⟨.error (.keyError "slug"), 1, []⟩ :=
  claim_C5_nontransient_propagates_immediately fetchTimes fetchTransient
    fetchDelay (fun _ => (.error (.keyError "slug") : Except PyError Nat))
    (.keyError "slug") rfl rfl

theorem foldl_extend_count {α : Type} (g : Nat → List α) :
    ∀ (l : List Nat) (xs : List α) (n : Nat),
      l.foldl (fun acc page => (acc.1 ++ g page, acc.2 + 1)) (xs, n) =
        (xs ++ (l.map g).flatten, n + l.length) := by
  intro l
  induction l with
  | nil => intro xs n; simp
  | cons a t ih =>
    intro xs n
    simp only [List.foldl_cons, List.map_cons, List.flatten_cons, List.length_cons]
    rw [ih (xs ++ g a) (n + 1)]
    rw [List.append_assoc]
    refine congrArg _ ?_
    omega

theorem getProblemsData_eq {α : Type} (page_size : Nat) (countResp : Option Nat)
    (fetchPage : Nat → Nat → Nat → List α) :
    getProblemsData page_size countResp fetchPage =
      (((List.range (ceilDivNat (getProblemsCount countResp + 1) page_size)).map
          (fun page => fetchPage 0 page_size page)).flatten,
       ceilDivNat (getProblemsCount countResp + 1) page_size) := by
  rw [getProblemsData]
  rw [foldl_extend_count (fun page => fetchPage 0 page_size page)]
  simp

theorem ceilDivNat_eq_ceil (a b : Nat) (ha : 0 < a) (hb : 0 < b) :
    ceilDivNat a b = ⌈(a : ℚ) / b⌉₊ := by
  have hq : (0 : ℚ) < b := by exact_mod_cast hb
  obtain ⟨m, rfl⟩ : ∃ m, a = m + 1 := ⟨a - 1, by omega⟩
  have hdiv : ceilDivNat (m + 1) b = m / b + 1 := by
    rw [ceilDivNat, show m + 1 + b - 1 = m + b by omega, Nat.add_div_right m hb]
  rw [hdiv]
  symm
  rw [Nat.ceil_eq_iff (Nat.succ_ne_zero (m / b))]
  refine ⟨?_, ?_⟩
  · rw [Nat.succ_sub_one, lt_div_iff₀ hq]
    have h1 : m / b * b ≤ m := Nat.div_mul_le_self m b
    calc ((m / b : ℕ) : ℚ) * (b : ℚ) = ((m / b * b : ℕ) : ℚ) := by push_cast; ring
      _ ≤ (m : ℚ) := by exact_mod_cast h1
      _ < ((m + 1 : ℕ) : ℚ) := by push_cast; linarith
  · rw [div_le_iff₀ hq]
    have h2 : m + 1 ≤ (m / b + 1) * b := by
      have hdm := Nat.div_add_mod m b
      have hmod := Nat.mod_lt m hb
      have hexp : (m / b + 1) * b = b * (m / b) + b := by ring
      rw [hexp]
      omega
    calc ((m + 1 : ℕ) : ℚ) ≤ (((m / b + 1) * b : ℕ) : ℚ) := by exact_mod_cast h2
      _ = ((m / b + 1 : ℕ) : ℚ) * (b : ℚ) := by push_cast; ring

/-- C1, counterexample: with the total-count field null, the Count Fetcher
does return 0, but the Pagination Driver then invokes the Page Fetcher once,
not zero times: at `page_size = 300`, the call count is not 0. -/
theorem claim_C1_counterexample :
    getProblemsCount none = 0 ∧
    (getProblemsData 300 none (fun _ _ _ => ([] : List Nat))).2 ≠ 0 := by
  exact ⟨rfl, by decide⟩

/-- C1 (amended): if the total-count field in the count response is absent
or null, the Count Fetcher returns 0, and with a total count of 0 the
Pagination Driver fetches exactly one page — the Page Fetcher is invoked
once, because the page count is `ceil((0 + 1) / page_size) = 1`. -/
theorem claim_C1_null_count_defaults_one_page {α : Type} (page_size : Nat)
    (hps : 0 < page_size) (fetchPage : Nat → Nat → Nat → List α) :
    getProblemsCount none = 0 ∧
    (getProblemsData page_size none fetchPage).2 = 1 := by
  refine ⟨rfl, ?_⟩
  rw [getProblemsData_eq]
  show ceilDivNat (getProblemsCount none + 1) page_size = 1
  show ceilDivNat 1 page_size = 1
  rw [ceilDivNat, show 1 + page_size - 1 = page_size by omega, Nat.div_self hps]

/-- Witness for the amended C1 at the default batch size 300. -/
theorem claim_C1_null_count_defaults_one_page_witness :
    getProblemsCount none = 0 ∧
    (getProblemsData 300 none (fun _ _ _ => ([] : List Nat))).2 = 1 :=
  claim_C1_null_count_defaults_one_page 300 (by decide) (fun _ _ _ => ([] : List Nat))

/-- C2: for every total count and positive page size, the Pagination Driver
invokes the Page Fetcher exactly `⌈(total + 1) / page_size⌉` times — the
source's `math.ceil((stop - start + 1) / page_size)` with `start = 0`,
`stop = total`, off-by-one included. -/
theorem claim_C2_page_fetch_count {α : Type} (total page_size : Nat)
    (hps : 0 < page_size) (fetchPage : Nat → Nat → Nat → List α) :
    (getProblemsData page_size (some total) fetchPage).2 =
      ⌈((total : ℚ) + 1) / (page_size : ℚ)⌉₊ := by
  rw [getProblemsData_eq]
  show ceilDivNat (getProblemsCount (some total) + 1) page_size = _
  rw [show getProblemsCount (some total) = total from rfl]
  rw [ceilDivNat_eq_ceil (total + 1) page_size (by omega) hps]
  norm_cast

/-- Witness for C2 at `total = 2`, `page_size = 300`. -/
theorem claim_C2_page_fetch_count_witness :
    (getProblemsData 300 (some 2) (fun _ _ _ => ([] : List Nat))).2 =
      ⌈(((2 : ℕ) : ℚ) + 1) / ((300 : ℕ) : ℚ)⌉₊ :=
  claim_C2_page_fetch_count 2 300 (by decide) (fun _ _ _ => ([] : List Nat))

/-- C6: the Page Fetcher requests the window starting at
`skip = offset + page * page_size` with `limit = page_size`; sequential
windows are contiguous (window `p + 1` starts where window `p` ends) and
non-overlapping (for `p < q`, window `p` ends no later than window `q`
starts). -/
theorem claim_C6_page_windows (offset page_size p q : Nat) (hpq : p < q) :
    (pageRequestVariables offset page_size p).skip = offset + p * page_size ∧
    (pageRequestVariables offset page_size p).limit = page_size ∧
    (pageRequestVariables offset page_size (p + 1)).skip =
      (pageRequestVariables offset page_size p).skip +
        (pageRequestVariables offset page_size p).limit ∧
    (pageRequestVariables offset page_size p).skip +
        (pageRequestVariables offset page_size p).limit ≤
      (pageRequestVariables offset page_size q).skip := by
  refine ⟨rfl, rfl, ?_, ?_⟩
  · show offset + (p + 1) * page_size = offset + p * page_size + page_size
    ring
  · show offset + p * page_size + page_size ≤ offset + q * page_size
    have h : (p + 1) * page_size ≤ q * page_size :=
      Nat.mul_le_mul_right page_size hpq
    calc offset + p * page_size + page_size
        = offset + (p + 1) * page_size := by ring
      _ ≤ offset + q * page_size := Nat.add_le_add_left h offset

/-- Witness for C6 at `offset = 0`, `page_size = 300`, pages 0 and 1. -/
theorem claim_C6_page_windows_witness :
    (pageRequestVariables 0 300 0).skip = 0 + 0 * 300 ∧
    (pageRequestVariables 0 300 0).limit = 300 ∧
    (pageRequestVariables 0 300 (0 + 1)).skip =
      (pageRequestVariables 0 300 0).skip + (pageRequestVariables 0 300 0).limit ∧
    (pageRequestVariables 0 300 0).skip + (pageRequestVariables 0 300 0).limit ≤
      (pageRequestVariables 0 300 1).skip :=
  claim_C6_page_windows 0 300 0 1 (by decide)

/-- C7: the Pagination Driver returns exactly the concatenation of the
pages the Page Fetcher produced, in increasing page-index order, and its
length is the sum of the per-page lengths. -/
theorem claim_C7_driver_concatenates_pages {α : Type} (page_size : Nat)
    (countResp : Option Nat) (fetchPage : Nat → Nat → Nat → List α) :
    (getProblemsData page_size countResp fetchPage).1 =
      ((List.range (getProblemsData page_size countResp fetchPage).2).map
        (fun page => fetchPage 0 page_size page)).flatten ∧
    (getProblemsData page_size countResp fetchPage).1.length =
      ((List.range (getProblemsData page_size countResp fetchPage).2).map
        (fun page => (fetchPage 0 page_size page).length)).sum := by
  rw [getProblemsData_eq]
  refine ⟨rfl, ?_⟩
  show (List.flatten _).length = _
  rw [List.length_flatten, List.map_map]
  rfl

/-- C9: when the session-credential environment variable is absent, client
construction fails with the lookup error and performs zero network calls
(the `get_csrf_cookie` round-trip is never reached). -/
theorem claim_C9_missing_credential_fails_before_network
    (env : String → Option String) (get_csrf_cookie : String → String)
    (h : env LEETCODE_SESSION_ID = none) :
    (getLeetcodeApiClient env get_csrf_cookie).1 =
      .error (.keyError LEETCODE_SESSION_ID) ∧
    (getLeetcodeApiClient env get_csrf_cookie).2 = 0 := by
  rw [getLeetcodeApiClient, h]
  exact ⟨rfl, rfl⟩

/-- Witness for C9 with an empty environment. -/
theorem claim_C9_missing_credential_fails_before_network_witness :
    (getLeetcodeApiClient (fun _ => none) (fun s => s)).1 =
      .error (.keyError LEETCODE_SESSION_ID) ∧
    (getLeetcodeApiClient (fun _ => none) (fun s => s)).2 = 0 :=
  claim_C9_missing_credential_fails_before_network (fun _ => none) (fun s => s) rfl

theorem collectSlugs_mem (objs : List TagObj) (slugs : List String)
    (h : collectSlugs objs = .ok slugs) :
    ∀ s, s ∈ slugs ↔ ∃ obj ∈ objs, lookupField "slug" obj = some s := by
  induction objs generalizing slugs with
  | nil =>
    simp only [collectSlugs, Except.ok.injEq] at h
    subst h
    simp
  | cons obj rest ih =>
    simp only [collectSlugs] at h
    cases hl : lookupField "slug" obj with
    | none => rw [hl] at h; simp at h
    | some t =>
      rw [hl] at h
      cases hr : collectSlugs rest with
      | error e => rw [hr] at h; simp at h
      | ok ss =>
        rw [hr] at h
        simp only [Except.ok.injEq] at h
        subst h
        intro s
        constructor
        · intro hs
          rcases List.mem_cons.mp hs with rfl | hs'
          · exact ⟨obj, List.mem_cons_self obj rest, hl⟩
          · obtain ⟨o, ho, hlo⟩ := (ih ss hr s).mp hs'
            exact ⟨o, List.mem_cons_of_mem obj ho, hlo⟩
        · rintro ⟨o, ho, hlo⟩
          rcases List.mem_cons.mp ho with rfl | ho'
          · rw [hl] at hlo
            rw [List.mem_cons]
            exact Or.inl (Option.some.inj hlo).symm
          · exact List.mem_cons_of_mem t ((ih ss hr s).mpr ⟨o, ho', hlo⟩)

theorem companySlugSet_parsed_ok (entries : List (String × List TagObj))
    (slugs : List String) (h : collectSlugs (allTagObjs entries) = .ok slugs) :
    companySlugSet (.parsed entries) = .ok slugs.dedup := by
  simp only [companySlugSet, h]

theorem problemRow_of_ok (p : GraphqlQuestionDetail) (companies : List String)
    (h : companySlugSet p.company_tag_stats = .ok companies) :
    problemRow p = .ok
      [p.question_frontend_id, p.title, p.title_slug, p.category_title,
       p.frequency, pyBoolStr p.is_paid_only,
       String.intercalate "," (p.topic_tags.map TopicTag.slug),
       String.intercalate "," companies] := by
  simp only [problemRow, h]

theorem writeRows_all_ok (ps : List GraphqlQuestionDetail)
    (hok : ∀ p ∈ ps, ∃ row, problemRow p = .ok row) :
    writeRows ps = (ps.map okRow, none) := by
  induction ps with
  | nil => rfl
  | cons p rest ih =>
    obtain ⟨row, hrow⟩ := hok p (List.mem_cons_self p rest)
    simp only [writeRows, hrow]
    rw [ih (fun q hq => hok q (List.mem_cons_of_mem p hq))]
    simp [okRow, hrow]

/-- C8: on an aggregated item list whose rows all build successfully, the
export writes the fixed 8-column header first, then one row per item in
order; each item's `topics` field comma-joins its topic-tag slugs in order,
and its `companies` field comma-joins a duplicate-free list whose members
are exactly the slugs drawn from all companies of its company-stats
structure. -/
theorem claim_C8_export_rows (problems_data : List GraphqlQuestionDetail)
    (hok : ∀ p ∈ problems_data, ∃ row, problemRow p = .ok row) :
    (exportFile problems_data).1 = csv_header :: problems_data.map okRow ∧
    csv_header = ["Question id", "title", "slug", "category", "frequency",
                  "is_paid", "topics", "companies"] ∧
    ∀ p ∈ problems_data,
      ∃ entries, p.company_tag_stats = .parsed entries ∧
      ∃ slugs, collectSlugs (allTagObjs entries) = .ok slugs ∧
        okRow p =
          [p.question_frontend_id, p.title, p.title_slug, p.category_title,
           p.frequency, pyBoolStr p.is_paid_only,
           String.intercalate "," (p.topic_tags.map TopicTag.slug),
           String.intercalate "," slugs.dedup] ∧
        slugs.dedup.Nodup ∧
        (∀ s, s ∈ slugs.dedup ↔ ∃ obj ∈ allTagObjs entries,
          lookupField "slug" obj = some s) := by
  refine ⟨?_, rfl, ?_⟩
  · rw [exportFile, writeRows_all_ok problems_data hok]
  · intro p hp
    obtain ⟨row, hrow⟩ := hok p hp
    rw [problemRow] at hrow
    cases hcs : companySlugSet p.company_tag_stats with
    | error e => rw [hcs] at hrow; simp at hrow
    | ok companies =>
      cases hstats : p.company_tag_stats with
      | malformed msg => rw [hstats, companySlugSet] at hcs; simp at hcs
      | notAnObject msg => rw [hstats, companySlugSet] at hcs; simp at hcs
      | parsed entries =>
        refine ⟨entries, rfl, ?_⟩
        rw [hstats, companySlugSet] at hcs
        cases hcol : collectSlugs (allTagObjs entries) with
        | error e => rw [hcol] at hcs; simp at hcs
        | ok slugs =>
          rw [hcol] at hcs
          simp only [Except.ok.injEq] at hcs
          refine ⟨slugs, rfl, ?_, List.nodup_dedup slugs, ?_⟩
          · rw [okRow,
              problemRow_of_ok p slugs.dedup
                (hstats ▸ companySlugSet_parsed_ok entries slugs hcol)]
          · intro s
            rw [List.mem_dedup]
            exact collectSlugs_mem (allTagObjs entries) slugs hcol s

/-- Witness for C8 on a one-item list built from the spec's company-stats
example. -/
theorem claim_C8_export_rows_witness :
    (exportFile [sampleProblem]).1 = csv_header :: [sampleProblem].map okRow :=
  (claim_C8_export_rows [sampleProblem] (by
    intro p hp
    rw [List.mem_singleton] at hp
    subst hp
    exact ⟨_, rfl⟩)).1

theorem writeRows_stops_at_error (good : List GraphqlQuestionDetail)
    (bad : GraphqlQuestionDetail) (rest : List GraphqlQuestionDetail)
    (hg : ∀ p ∈ good, ∃ row, problemRow p = .ok row)
    (e : PyError) (hb : problemRow bad = .error e) :
    writeRows (good ++ bad :: rest) = (good.map okRow, some e) := by
  induction good with
  | nil => simp only [List.nil_append, writeRows, hb, List.map_nil]
  | cons p t ih =>
    obtain ⟨row, hrow⟩ := hg p (List.mem_cons_self p t)
    simp only [List.cons_append, writeRows, hrow, List.append_eq]
    rw [ih (fun q hq => hg q (List.mem_cons_of_mem p hq))]
    simp [okRow, hrow]

/-- C10: when some item's company-stats field is malformed (e.g. `null`, or
a tag object lacking a `"slug"` key), building that item's row raises an
uncaught error, and the output file ends up holding the header plus the
rows of exactly the items processed before the failing one — a partial
write, not all-or-nothing. -/
theorem claim_C10_partial_output (good : List GraphqlQuestionDetail)
    (bad : GraphqlQuestionDetail) (rest : List GraphqlQuestionDetail)
    (hg : ∀ p ∈ good, ∃ row, problemRow p = .ok row)
    (hb : ∃ e, problemRow bad = .error e) :
    ∃ e, problemRow bad = .error e ∧
      exportFile (good ++ bad :: rest) =
        (csv_header :: good.map okRow, some e) := by
  obtain ⟨e, he⟩ := hb
  refine ⟨e, he, ?_⟩
  rw [exportFile, writeRows_stops_at_error good bad rest hg e he]

/-- Witness for C10: a valid item, then an item with malformed stats, then
another valid item; the file holds the header and the first item's row
only. -/
theorem claim_C10_partial_output_witness :
    ∃ e, problemRow badProblem = .error e ∧
      exportFile ([sampleProblem] ++ badProblem :: [sampleProblem]) =
        (csv_header :: [sampleProblem].map okRow, some e) :=
  claim_C10_partial_output [sampleProblem] badProblem [sampleProblem]
    (by
      intro p hp
      rw [List.mem_singleton] at hp
      subst hp
      exact ⟨_, rfl⟩)
    ⟨_, rfl⟩

end Export
